import Mathlib

/-!
Verification of the build-time configuration resolver in `setup.py` of the
SageAttention repository: compute-capability resolution (override string,
device enumeration, static fallback), NVCC toolkit-version validation,
gencode flag composition, and extension-module selection.

Python strings are modelled over `List Char`; the Python `set` of capability
strings is modelled as a duplicate-free `List String` together with an
explicit iteration order where the order matters.
-/

/-- Char-list prefix test: `takesLead p l` is true iff `p` is an initial
segment of `l` (the model of Python's `str.startswith`). -/
def takesLead : List Char → List Char → Bool
  | [], _ => true
  | _ :: _, [] => false
  | p :: ps, c :: cs => p == c && takesLead ps cs

/-- Model of Python `s.startswith(p)`. -/
def strStartsWith (s p : String) : Bool := takesLead p.toList s.toList

/-- Model of Python `s.endswith(p)`. -/
def strEndsWith (s p : String) : Bool := takesLead p.toList.reverse s.toList.reverse

/-- Whitespace test used by Python's argument-less `str.split` and `str.strip`. -/
def isPySpace (c : Char) : Bool := c.isWhitespace

/-- Accumulator-style tokenizer: splits on runs of whitespace and drops empty
tokens, the model of Python's `str.split()` with no arguments. -/
def splitWsAux : List Char → List Char → List String
  | [], acc => if acc.isEmpty then [] else [String.mk acc.reverse]
  | c :: cs, acc =>
    if isPySpace c then
      if acc.isEmpty then splitWsAux cs [] else String.mk acc.reverse :: splitWsAux cs []
    else splitWsAux cs (c :: acc)

/-- Model of Python `s.split()` on a character list. -/
def splitWs (l : List Char) : List String := splitWsAux l []

/-- Model of Python `s.strip()`. -/
def pyStrip (s : String) : String :=
  String.mk (((s.toList.dropWhile isPySpace).reverse.dropWhile isPySpace).reverse)

/-- Model of `s.replace(";", " ")` from setup.py line 80 (single-character
replacement, hence a character map). -/
def replaceSemi (s : String) : List Char :=
  s.toList.map (fun c => if c == ';' then ' ' else c)

/-- Model of `torch_cuda_arch_list.replace(";", " ").split()` (setup.py line 80). -/
def parseArchList (s : String) : List String := splitWs (replaceSemi s)

/-- Python `f"{major}.{minor}"` for the two capability components (setup.py line 96). -/
def capStr (ma mi : Nat) : String := Nat.repr ma ++ "." ++ Nat.repr mi

/-- `SUPPORTED_ARCHS` from setup.py line 34, as a list (the Python literal is a
set; membership is what the code uses it for). -/
def SUPPORTED_ARCHS : List String := ["8.0", "8.6", "8.9", "9.0", "12.0"]

/-- Python `set.add`: insert if not already present. -/
def setAdd (l : List String) (x : String) : List String :=
  if x ∈ l then l else l ++ [x]

/-- Strategy 1 of capability resolution (setup.py lines 77-85): parse the
override string, strip each token, keep it only when it is a member of
`SUPPORTED_ARCHS` (otherwise it is dropped with a warning). -/
def resolveFromOverride (s : String) : List String :=
  (parseArchList s).foldl
    (fun acc tok =>
      if pyStrip tok ∈ SUPPORTED_ARCHS then setAdd acc (pyStrip tok) else acc) []

/-- Strategy 2 of capability resolution (setup.py lines 88-96): each attached
device contributes `f"{major}.{minor}"` unless `major < 8`, in which case it
is skipped with a warning. No membership check against `SUPPORTED_ARCHS`. -/
def resolveFromDevices (devices : List (Nat × Nat)) : List String :=
  devices.foldl
    (fun acc d => if d.1 < 8 then acc else setAdd acc (capStr d.1 d.2)) []

/-- Python truthiness of `os.environ.get("TORCH_CUDA_ARCH_LIST")`: `None` and
the empty string are both falsy (setup.py line 77). -/
def optTruthy : Option String → Bool
  | none => false
  | some s => !s.isEmpty

/-- The three-strategy resolution of `compute_capabilities` (setup.py lines
73-100): explicit override when the environment variable is truthy, else
device enumeration when at least one device is attached, else the full
`SUPPORTED_ARCHS` fallback. -/
def resolveComputeCapabilities (ov : Option String) (devices : List (Nat × Nat)) :
    List String :=
  if optTruthy ov then resolveFromOverride (ov.getD "")
  else if devices.length > 0 then resolveFromDevices devices
  else SUPPORTED_ARCHS

example : resolveComputeCapabilities (some "8.0;8.6") [] = ["8.0", "8.6"] := by decide
example : resolveComputeCapabilities (some "9.0+PTX") [] = [] := by decide
example : resolveComputeCapabilities none [(8, 7)] = ["8.7"] := by decide
example : resolveComputeCapabilities none [] = SUPPORTED_ARCHS := by decide
example : resolveComputeCapabilities (some "") [(8, 0)] = ["8.0"] := by decide

instance {ε α : Type} [DecidableEq ε] [DecidableEq α] : DecidableEq (Except ε α)
  | Except.error a, Except.error b =>
    if h : a = b then isTrue (by rw [h]) else isFalse (by intro hc; cases hc; exact h rfl)
  | Except.error _, Except.ok _ => isFalse (by intro hc; cases hc)
  | Except.ok _, Except.error _ => isFalse (by intro hc; cases hc)
  | Except.ok a, Except.ok b =>
    if h : a = b then isTrue (by rw [h]) else isFalse (by intro hc; cases hc; exact h rfl)

/-- A parsed toolkit version, the model of `packaging.version.Version` as far
as the comparisons in setup.py use it (thresholds are all of the form X.Y). -/
structure PyVersion where
  major : Nat
  minor : Nat
deriving DecidableEq

/-- Strict version order against an X.Y threshold, the model of
`nvcc_cuda_version < Version("X.Y")`. -/
def pvLt (a b : PyVersion) : Bool :=
  a.major < b.major || (a.major == b.major && a.minor < b.minor)

/-- First index of a string in a list: the model of Python `list.index`, which
raises `ValueError` (here `none`) when the element is absent. -/
def indexOfStr (target : String) : List String → Option Nat
  | [] => none
  | t :: ts => if t == target then some 0 else (indexOfStr target ts).map (· + 1)

/-- Characters before the first separator: the model of `tok.split(",")[0]`. -/
def takeUntil (sep : Char) (l : List Char) : List Char :=
  l.takeWhile (fun c => c != sep)

/-- Digit-string to number, `none` on a non-digit. -/
def digitsValAux : List Char → Nat → Option Nat
  | [], acc => some acc
  | c :: cs, acc =>
    if c.isDigit then digitsValAux cs (acc * 10 + (c.toNat - 48)) else none

/-- Parse a non-empty all-digit character list as a number. -/
def parseNat? (cs : List Char) : Option Nat :=
  if cs.isEmpty then none else digitsValAux cs 0

/-- Dot-separated components of a version token, keeping empty components. -/
def splitDots : List Char → List (List Char)
  | [] => [[]]
  | c :: cs =>
    if c == '.' then [] :: splitDots cs
    else
      match splitDots cs with
      | [] => [[c]]
      | g :: gs => (c :: g) :: gs

/-- Model of `packaging.version.parse` restricted to the release components
the comparisons need: "X" parses as X.0, "X.Y..." as X.Y; anything with a
non-numeric leading component fails. -/
def parseVersion (s : String) : Option PyVersion :=
  match (splitDots s.toList).map parseNat? with
  | [some ma] => some ⟨ma, 0⟩
  | some ma :: some mi :: rest =>
    if rest.all Option.isSome then some ⟨ma, mi⟩ else none
  | _ => none

/-- Model of `get_nvcc_cuda_version` (setup.py lines 57-67): tokenize the
`nvcc -V` output, locate the "release" token, parse the following token up to
the first comma. A missing "release" token is Python's `ValueError` from
`list.index`; a missing following token is an `IndexError`. -/
def getNvccCudaVersion (nvccOutput : String) : Except String PyVersion :=
  match indexOfStr "release" (splitWs nvccOutput.toList) with
  | none => Except.error "VersionParseError: release is not in list"
  | some i =>
    match (splitWs nvccOutput.toList)[i + 1]? with
    | none => Except.error "IndexError: list index out of range"
    | some tok =>
      match parseVersion (String.mk (takeUntil ',' tok.toList)) with
      | none => Except.error "VersionParseError: invalid version token"
      | some v => Except.ok v

/-- The toolkit probe including the `CUDA_HOME is None` guard of setup.py
lines 53-55, which runs before `get_nvcc_cuda_version` is ever invoked
(line 102). -/
def probeToolkitVersion (cudaHome : Option String) (nvccOutput : String) :
    Except String PyVersion :=
  match cudaHome with
  | none => Except.error "ToolchainNotFoundError: Cannot find CUDA_HOME"
  | some _ => getNvccCudaVersion nvccOutput

example :
    probeToolkitVersion (some "/usr/local/cuda")
      "nvcc: NVIDIA (R) Cuda compiler driver release 12.4, V12.4.131"
      = Except.ok ⟨12, 4⟩ := by decide

/-- The NVCC version validation chain of setup.py lines 108-119, returning
the message of the first `RuntimeError` raised, if any. -/
def validateNvccVersion (v : PyVersion) (caps : List String) : Option String :=
  if pvLt v ⟨12, 0⟩ then
    some "CUDA 12.0 or higher is required to build the package."
  else if pvLt v ⟨12, 4⟩ && caps.any (fun cc => strStartsWith cc "8.9") then
    some "CUDA 12.4 or higher is required for compute capability 8.9."
  else if pvLt v ⟨12, 3⟩ && caps.any (fun cc => strStartsWith cc "9.0") then
    some "CUDA 12.3 or higher is required for compute capability 9.0."
  else if pvLt v ⟨12, 8⟩ && caps.any (fun cc => strStartsWith cc "12.0") then
    some "CUDA 12.8 or higher is required for compute capability 12.0."
  else none

example : validateNvccVersion ⟨12, 5⟩ ["8.0", "8.6"] = none := by decide
example : validateNvccVersion ⟨12, 2⟩ ["9.0"]
    = some "CUDA 12.3 or higher is required for compute capability 9.0." := by decide

/-- The mutable state threaded through the flag-composition loop of setup.py
lines 122-140: the five `HAS_SM*` globals, the loop-local `num` variable
(`none` models the name being unbound), and the `NVCC_FLAGS` list. -/
structure FlagState where
  hasSM80 : Bool
  hasSM86 : Bool
  hasSM89 : Bool
  hasSM90 : Bool
  hasSM120 : Bool
  num : Option String
  nvccFlags : List String
deriving DecidableEq

/-- One iteration of the `for capability in compute_capabilities` loop
(setup.py lines 122-140). When no branch of the if/elif chain matches, `num`
keeps its previous binding; using it while unbound is Python's `NameError`. -/
def stepCapability (st : FlagState) (capability : String) : Except String FlagState :=
  let st1 : FlagState :=
    if strStartsWith capability "8.0" then { st with hasSM80 := true, num := some "80" }
    else if strStartsWith capability "8.6" then { st with hasSM86 := true, num := some "86" }
    else if strStartsWith capability "8.9" then { st with hasSM89 := true, num := some "89" }
    else if strStartsWith capability "9.0" then { st with hasSM90 := true, num := some "90a" }
    else if strStartsWith capability "12.0" then { st with hasSM120 := true, num := some "120" }
    else st
  match st1.num with
  | none => Except.error "NameError: name num is not defined"
  | some n =>
    Except.ok { st1 with nvccFlags :=
      (st1.nvccFlags ++ ["-gencode", "arch=compute_" ++ n ++ ",code=sm_" ++ n])
      ++ (if strEndsWith capability "+PTX" then
            ["-gencode", "arch=compute_" ++ n ++ ",code=compute_" ++ n]
          else []) }

/-- Initial flag state: all `HAS_SM*` false (setup.py lines 27-31), `num`
unbound, and the pre-existing `NVCC_FLAGS` contents. -/
def initFlagState (nvccInit : List String) : FlagState :=
  ⟨false, false, false, false, false, none, nvccInit⟩

/-- The whole flag-composition loop over the capability set in a given
iteration order. -/
def composeFlags (nvccInit : List String) (caps : List String) :
    Except String FlagState :=
  caps.foldlM stepCapability (initFlagState nvccInit)

/-- The if/elif switch of setup.py lines 123-137 as a pure partial map from a
capability string to the `num` architecture code it selects. -/
def archCode (c : String) : Option String :=
  if strStartsWith c "8.0" then some "80"
  else if strStartsWith c "8.6" then some "86"
  else if strStartsWith c "8.9" then some "89"
  else if strStartsWith c "9.0" then some "90a"
  else if strStartsWith c "12.0" then some "120"
  else none

/-- The gencode fragment one recognized capability appends to `NVCC_FLAGS`
(setup.py lines 138-140). -/
def gencodePairs (c : String) : List String :=
  match archCode c with
  | none => []
  | some n =>
    ["-gencode", "arch=compute_" ++ n ++ ",code=sm_" ++ n]
    ++ (if strEndsWith c "+PTX" then
          ["-gencode", "arch=compute_" ++ n ++ ",code=compute_" ++ n]
        else [])

example : composeFlags [] ["9.0"]
    = Except.ok ⟨false, false, false, true, false, some "90a",
        ["-gencode", "arch=compute_90a,code=sm_90a"]⟩ := by decide
example : composeFlags [] ["8.7"]
    = Except.error "NameError: name num is not defined" := by decide

/-- One `CUDAExtension` call: name, sources, per-stage compile flags, extra
link arguments (setup.py lines 145-196). -/
structure CUDAExtensionSpec where
  name : String
  sources : List String
  cxxFlags : List String
  nvccFlags : List String
  extraLinkArgs : List String
deriving DecidableEq

/-- The `sageattention._qattn_sm80` extension (setup.py lines 145-155). -/
def qattnSM80Ext (cxx nvcc : List String) : CUDAExtensionSpec :=
  ⟨"sageattention._qattn_sm80",
   ["csrc/qattn/pybind_sm80.cpp", "csrc/qattn/qk_int_sv_f16_cuda_sm80.cu"],
   cxx, nvcc, []⟩

/-- The `sageattention._qattn_sm89` extension (setup.py lines 159-169). -/
def qattnSM89Ext (cxx nvcc : List String) : CUDAExtensionSpec :=
  ⟨"sageattention._qattn_sm89",
   ["csrc/qattn/pybind_sm89.cpp", "csrc/qattn/qk_int_sv_f8_cuda_sm89.cu"],
   cxx, nvcc, []⟩

/-- The `sageattention._qattn_sm90` extension, the only one with
`extra_link_args` (setup.py lines 173-184). -/
def qattnSM90Ext (cxx nvcc : List String) : CUDAExtensionSpec :=
  ⟨"sageattention._qattn_sm90",
   ["csrc/qattn/pybind_sm90.cpp", "csrc/qattn/qk_int_sv_f8_cuda_sm90.cu"],
   cxx, nvcc, ["-lcuda"]⟩

/-- The always-included `sageattention._fused` extension (setup.py lines
188-196). -/
def fusedExt (cxx nvcc : List String) : CUDAExtensionSpec :=
  ⟨"sageattention._fused",
   ["csrc/fused/pybind.cpp", "csrc/fused/fused.cu"],
   cxx, nvcc, []⟩

/-- The `ext_modules` construction of setup.py lines 142-196: conditional
appends in source order, with the fused module appended unconditionally. -/
def extModules (h80 h86 h89 h90 h120 : Bool) (cxx nvcc : List String) :
    List CUDAExtensionSpec :=
  (if h80 || h86 || h89 || h90 || h120 then [qattnSM80Ext cxx nvcc] else [])
  ++ (if h89 || h120 then [qattnSM89Ext cxx nvcc] else [])
  ++ (if h90 then [qattnSM90Ext cxx nvcc] else [])
  ++ [fusedExt cxx nvcc]

example : (extModules true false false false false [] []).map CUDAExtensionSpec.name
    = ["sageattention._qattn_sm80", "sageattention._fused"] := by decide
example : (extModules true true true true true [] []).map CUDAExtensionSpec.name
    = ["sageattention._qattn_sm80", "sageattention._qattn_sm89",
       "sageattention._qattn_sm90", "sageattention._fused"] := by decide

/-! ## Supporting lemmas -/

lemma mem_setAdd {l : List String} {x c : String} : c ∈ setAdd l x ↔ c ∈ l ∨ c = x := by
  unfold setAdd
  split_ifs with h
  · exact ⟨Or.inl, fun h' => h'.elim id (fun he => he ▸ h)⟩
  · simp

lemma overrideFold_mem (toks : List String) :
    ∀ (acc : List String) (c : String),
      c ∈ toks.foldl
        (fun acc tok =>
          if pyStrip tok ∈ SUPPORTED_ARCHS then setAdd acc (pyStrip tok) else acc) acc →
      c ∈ acc ∨ c ∈ SUPPORTED_ARCHS := by
  induction toks with
  | nil => exact fun acc c h => Or.inl h
  | cons t ts ih =>
    intro acc c h
    simp only [List.foldl_cons] at h
    rcases ih _ c h with h' | h'
    · by_cases hm : pyStrip t ∈ SUPPORTED_ARCHS
      · rw [if_pos hm] at h'
        rcases mem_setAdd.mp h' with h'' | rfl
        · exact Or.inl h''
        · exact Or.inr hm
      · rw [if_neg hm] at h'
        exact Or.inl h'
    · exact Or.inr h'

lemma mem_resolveFromOverride {s c : String} (h : c ∈ resolveFromOverride s) :
    c ∈ SUPPORTED_ARCHS := by
  rcases overrideFold_mem (parseArchList s) [] c h with h' | h'
  · simp at h'
  · exact h'

lemma devicesFold_mem (ds : List (Nat × Nat)) :
    ∀ (acc : List String) (c : String),
      (c ∈ ds.foldl
          (fun acc d => if d.1 < 8 then acc else setAdd acc (capStr d.1 d.2)) acc
        ↔ c ∈ acc ∨ ∃ d, d ∈ ds ∧ 8 ≤ d.1 ∧ c = capStr d.1 d.2) := by
  induction ds with
  | nil => intro acc c; simp
  | cons d ds ih =>
    intro acc c
    simp only [List.foldl_cons]
    by_cases h8 : d.1 < 8
    · rw [if_pos h8, ih]
      constructor
      · rintro (h | ⟨d', hd', hle, rfl⟩)
        · exact Or.inl h
        · exact Or.inr ⟨d', List.mem_cons_of_mem _ hd', hle, rfl⟩
      · rintro (h | ⟨d', hd', hle, rfl⟩)
        · exact Or.inl h
        · rcases List.mem_cons.mp hd' with rfl | hd''
          · omega
          · exact Or.inr ⟨d', hd'', hle, rfl⟩
    · rw [if_neg h8, ih]
      constructor
      · rintro (h | ⟨d', hd', hle, rfl⟩)
        · rcases mem_setAdd.mp h with h' | rfl
          · exact Or.inl h'
          · exact Or.inr ⟨d, List.mem_cons_self _ _, by omega, rfl⟩
        · exact Or.inr ⟨d', List.mem_cons_of_mem _ hd', hle, rfl⟩
      · rintro (h | ⟨d', hd', hle, rfl⟩)
        · exact Or.inl (mem_setAdd.mpr (Or.inl h))
        · rcases List.mem_cons.mp hd' with rfl | hd''
          · exact Or.inl (mem_setAdd.mpr (Or.inr rfl))
          · exact Or.inr ⟨d', hd'', hle, rfl⟩

lemma mem_resolveFromDevices {ds : List (Nat × Nat)} {c : String} :
    c ∈ resolveFromDevices ds ↔ ∃ d, d ∈ ds ∧ 8 ≤ d.1 ∧ c = capStr d.1 d.2 := by
  unfold resolveFromDevices
  rw [devicesFold_mem]
  simp

lemma indexOfStr_of_not_mem {t : String} :
    ∀ {l : List String}, t ∉ l → indexOfStr t l = none := by
  intro l
  induction l with
  | nil => intro _; rfl
  | cons x xs ih =>
    intro h
    have hx : ¬(x == t) = true := by
      simp only [beq_iff_eq]
      intro he
      exact h (he ▸ List.mem_cons_self _ _)
    have hxs : t ∉ xs := fun hm => h (List.mem_cons_of_mem _ hm)
    simp [indexOfStr, hx, ih hxs]

/-! ## Claim theorems -/

/-- C1 (counterexample): a device reporting capability (8, 7) makes "8.7"
enter the resolved set through device enumeration even though "8.7" is not in
`SUPPORTED_ARCHS`, so the claimed invariant fails for that strategy. -/
theorem C1_device_capability_outside_supported :
    "8.7" ∈ resolveComputeCapabilities none [(8, 7)]
    ∧ "8.7" ∉ SUPPORTED_ARCHS := by decide

/-- C1 (amended): capabilities produced by the explicit-override strategy are
always members of `SUPPORTED_ARCHS` (unknown tokens are dropped with a
warning), and the static fallback is exactly `SUPPORTED_ARCHS`; only the
device-enumeration strategy can introduce values outside the set. -/
theorem C1_amended_override_and_fallback_supported (s : String)
    (devices : List (Nat × Nat)) (c : String) :
    (optTruthy (some s) = true →
      c ∈ resolveComputeCapabilities (some s) devices → c ∈ SUPPORTED_ARCHS)
    ∧ resolveComputeCapabilities none [] = SUPPORTED_ARCHS := by
  constructor
  · intro ht hc
    rw [resolveComputeCapabilities, if_pos ht] at hc
    exact mem_resolveFromOverride hc
  · rfl

/-- C1 (witness): the amended theorem applied to override "8.0" with no
devices. -/
theorem C1_amended_witness :
    "8.0" ∈ SUPPORTED_ARCHS ∧ resolveComputeCapabilities none [] = SUPPORTED_ARCHS :=
  ⟨(C1_amended_override_and_fallback_supported "8.0" [] "8.0").1 (by decide) (by decide),
   (C1_amended_override_and_fallback_supported "8.0" [] "8.0").2⟩

/-- C2: an override token carrying the "+PTX" suffix is not accepted: it is
not a member of `SUPPORTED_ARCHS`, so the parser drops it with a warning and
it never reaches the flag-composition loop; the loop's second-gencode branch
(setup.py lines 139-140) would emit the forward-PTX pair if such a capability
were ever present, but via the override it cannot be. -/
theorem C2_ptx_token_rejected :
    strEndsWith "9.0+PTX" "+PTX" = true
    ∧ resolveComputeCapabilities (some "9.0+PTX") [] = []
    ∧ resolveComputeCapabilities (some "9.0;9.0+PTX") [] = ["9.0"]
    ∧ composeFlags [] ["9.0+PTX"]
        = Except.ok ⟨false, false, false, true, false, some "90a",
            ["-gencode", "arch=compute_90a,code=sm_90a",
             "-gencode", "arch=compute_90a,code=compute_90a"]⟩ := by decide

/-- C3: the validator reports an error exactly when the toolkit version is
below 12.0, or a capability with prefix "8.9" is present and the version is
below 12.4, or one with prefix "9.0" is present and the version is below
12.3, or one with prefix "12.0" is present and the version is below 12.8;
and when the version is below 12.0 the reported error is the global-minimum
one, i.e. the global rule fires before any prefix-specific rule. -/
theorem C3_validator_exact_conditions (v : PyVersion) (caps : List String) :
    ((validateNvccVersion v caps).isSome = true ↔
      (pvLt v ⟨12, 0⟩ = true
       ∨ (caps.any (fun cc => strStartsWith cc "8.9") = true ∧ pvLt v ⟨12, 4⟩ = true)
       ∨ (caps.any (fun cc => strStartsWith cc "9.0") = true ∧ pvLt v ⟨12, 3⟩ = true)
       ∨ (caps.any (fun cc => strStartsWith cc "12.0") = true ∧ pvLt v ⟨12, 8⟩ = true)))
    ∧ (pvLt v ⟨12, 0⟩ = true →
       validateNvccVersion v caps
         = some "CUDA 12.0 or higher is required to build the package.") := by
  constructor
  · cases hA : pvLt v ⟨12, 0⟩ <;> cases hB : pvLt v ⟨12, 4⟩ <;>
      cases hC : pvLt v ⟨12, 3⟩ <;> cases hD : pvLt v ⟨12, 8⟩ <;>
      cases hX : caps.any (fun cc => strStartsWith cc "8.9") <;>
      cases hY : caps.any (fun cc => strStartsWith cc "9.0") <;>
      cases hZ : caps.any (fun cc => strStartsWith cc "12.0") <;>
      simp [validateNvccVersion, hA, hB, hC, hD, hX, hY, hZ]
  · intro h
    simp [validateNvccVersion, h]

/-- C3 (witness): toolkit 11.8 with capability "9.0" present triggers the
global-minimum error, not the 9.0-specific one. -/
theorem C3_validator_witness :
    validateNvccVersion ⟨11, 8⟩ ["9.0"]
      = some "CUDA 12.0 or higher is required to build the package." :=
  (C3_validator_exact_conditions ⟨11, 8⟩ ["9.0"]).2 (by decide)

/-- C5: the switch maps prefix 8.0 to "80", 8.6 to "86", 8.9 to "89", 9.0 to
"90a", but 12.0 to "120" with no "a" suffix, contradicting the claim (and the
code's own comment saying sm120a is needed). -/
theorem C5_arch_code_mapping :
    archCode "8.0" = some "80" ∧ archCode "8.6" = some "86"
    ∧ archCode "8.9" = some "89" ∧ archCode "9.0" = some "90a"
    ∧ archCode "12.0" = some "120"
    ∧ strEndsWith "90a" "a" = true ∧ strEndsWith "120" "a" = false
    ∧ composeFlags [] ["12.0"]
        = Except.ok ⟨false, false, false, false, true, some "120",
            ["-gencode", "arch=compute_120,code=sm_120"]⟩ := by decide

/-- C7: with no override and a non-empty device list, the resolved set
contains exactly the "major.minor" renderings of the devices whose major tier
is at least 8. -/
theorem C7_device_enumeration_set (devices : List (Nat × Nat))
    (hne : devices ≠ []) (s : String) :
    s ∈ resolveComputeCapabilities none devices
      ↔ ∃ d, d ∈ devices ∧ 8 ≤ d.1 ∧ s = capStr d.1 d.2 := by
  have hlen : devices.length > 0 := List.length_pos.mpr hne
  have heq : resolveComputeCapabilities none devices = resolveFromDevices devices := by
    simp [resolveComputeCapabilities, optTruthy, hlen]
  rw [heq, mem_resolveFromDevices]

/-- C7 (witness): a single device (8, 0) yields exactly the element "8.0". -/
theorem C7_device_enumeration_witness :
    "8.0" ∈ resolveComputeCapabilities none [(8, 0)] :=
  (C7_device_enumeration_set [(8, 0)] (by decide) "8.0").mpr
    ⟨(8, 0), by decide, by decide, by decide⟩

/-- C8: the probe fails with the toolchain-not-found error whenever the
installation path is unset, for any probe output (the check precedes
probing), and fails with the version-parse error whenever the tokenized
output has no "release" token. -/
theorem C8_probe_errors (out : String) (home : String) :
    probeToolkitVersion none out
      = Except.error "ToolchainNotFoundError: Cannot find CUDA_HOME"
    ∧ ("release" ∉ splitWs out.toList →
       probeToolkitVersion (some home) out
         = Except.error "VersionParseError: release is not in list") := by
  refine ⟨rfl, fun h => ?_⟩
  show getNvccCudaVersion out = _
  unfold getNvccCudaVersion
  rw [indexOfStr_of_not_mem h]

/-- C8 (witness): the probe theorem at a concrete release-free output. -/
theorem C8_probe_errors_witness :
    probeToolkitVersion none "nvcc compiler driver"
      = Except.error "ToolchainNotFoundError: Cannot find CUDA_HOME"
    ∧ probeToolkitVersion (some "/usr/local/cuda") "nvcc compiler driver"
      = Except.error "VersionParseError: release is not in list" :=
  ⟨(C8_probe_errors "nvcc compiler driver" "/usr/local/cuda").1,
   (C8_probe_errors "nvcc compiler driver" "/usr/local/cuda").2 (by decide)⟩

/-- C9: the switch is not total: "8.7" (reachable from a device reporting
capability (8, 7)) matches no prefix, so as the first processed capability
the loop fails with an unbound-name error, and after "8.0" it silently
re-emits the previous capability's gencode pair. -/
theorem C9_switch_not_total :
    archCode "8.7" = none
    ∧ composeFlags [] ["8.7"] = Except.error "NameError: name num is not defined"
    ∧ composeFlags [] ["8.0", "8.7"]
        = Except.ok ⟨true, false, false, false, false, some "80",
            ["-gencode", "arch=compute_80,code=sm_80",
             "-gencode", "arch=compute_80,code=sm_80"]⟩
    ∧ "8.7" ∈ resolveComputeCapabilities none [(8, 7)] := by decide

/-- C10: an override that is set but empty is falsy, so resolution behaves
exactly as if no override were supplied, for any device configuration. -/
theorem C10_empty_override_falls_through (devices : List (Nat × Nat)) :
    resolveComputeCapabilities (some "") devices
      = resolveComputeCapabilities none devices := rfl

/-- C4: module membership in the build plan: the sm80 module is included iff
any tier flag is set, the sm89 module iff tier 89 or 120, the sm90 module
(which carries the extra "-lcuda" link argument) iff tier 90, the fused
module always; and the plan lists modules in the fixed source order
sm80, sm89, sm90, fused. -/
theorem C4_module_plan (h80 h86 h89 h90 h120 : Bool) (cxx nvcc : List String) :
    ("sageattention._qattn_sm80"
        ∈ (extModules h80 h86 h89 h90 h120 cxx nvcc).map CUDAExtensionSpec.name
      ↔ (h80 || h86 || h89 || h90 || h120) = true)
    ∧ ("sageattention._qattn_sm89"
        ∈ (extModules h80 h86 h89 h90 h120 cxx nvcc).map CUDAExtensionSpec.name
      ↔ (h89 || h120) = true)
    ∧ ("sageattention._qattn_sm90"
        ∈ (extModules h80 h86 h89 h90 h120 cxx nvcc).map CUDAExtensionSpec.name
      ↔ h90 = true)
    ∧ "sageattention._fused"
        ∈ (extModules h80 h86 h89 h90 h120 cxx nvcc).map CUDAExtensionSpec.name
    ∧ (qattnSM90Ext cxx nvcc).extraLinkArgs = ["-lcuda"]
    ∧ (extModules h80 h86 h89 h90 h120 cxx nvcc).Sublist
        [qattnSM80Ext cxx nvcc, qattnSM89Ext cxx nvcc,
         qattnSM90Ext cxx nvcc, fusedExt cxx nvcc] := by
  have hone : ∀ (b : Bool) (x : CUDAExtensionSpec), (if b then [x] else []).Sublist [x] := by
    intro b x
    cases b <;> simp
  refine ⟨?_, ?_, ?_, ?_, rfl, ?_⟩
  · cases h80 <;> cases h86 <;> cases h89 <;> cases h90 <;> cases h120 <;>
      simp [extModules, qattnSM80Ext, qattnSM89Ext, qattnSM90Ext, fusedExt]
  · cases h80 <;> cases h86 <;> cases h89 <;> cases h90 <;> cases h120 <;>
      simp [extModules, qattnSM80Ext, qattnSM89Ext, qattnSM90Ext, fusedExt]
  · cases h80 <;> cases h86 <;> cases h89 <;> cases h90 <;> cases h120 <;>
      simp [extModules, qattnSM80Ext, qattnSM89Ext, qattnSM90Ext, fusedExt]
  · cases h80 <;> cases h86 <;> cases h89 <;> cases h90 <;> cases h120 <;>
      simp [extModules, qattnSM80Ext, qattnSM89Ext, qattnSM90Ext, fusedExt]
  · unfold extModules
    exact (((hone _ _).append (hone _ _)).append (hone _ _)).append (List.Sublist.refl _)

/-- Tier-presence over a capability iteration order: some capability selects
architecture code `n`. -/
def tierBool (n : String) (caps : List String) : Bool :=
  caps.any (fun c => archCode c == some n)

/-- Concatenation of the per-capability flag fragments. -/
def concatAll : List (List String) → List String
  | [] => []
  | l :: ls => l ++ concatAll ls

lemma concatAll_perm : ∀ {l1 l2 : List (List String)},
    l1.Perm l2 → (concatAll l1).Perm (concatAll l2) := by
  intro l1 l2 h
  induction h with
  | nil => exact List.Perm.refl _
  | cons x _ ih => exact List.Perm.append_left x ih
  | swap x y l =>
    show (concatAll (y :: x :: l)).Perm (concatAll (x :: y :: l))
    show (y ++ (x ++ concatAll l)).Perm (x ++ (y ++ concatAll l))
    rw [← List.append_assoc, ← List.append_assoc]
    exact List.perm_append_comm.append_right _
  | trans _ _ ih1 ih2 => exact ih1.trans ih2

lemma any_perm {l1 l2 : List String} (h : l1.Perm l2) (p : String → Bool) :
    l1.any p = l2.any p := by
  cases hb : l2.any p
  · refine List.any_eq_false.mpr fun x hx => ?_
    exact List.any_eq_false.mp hb x (h.mem_iff.mp hx)
  · rw [List.any_eq_true] at hb ⊢
    obtain ⟨x, hx, hp⟩ := hb
    exact ⟨x, h.mem_iff.mpr hx, hp⟩

lemma stepCapability_eq (st : FlagState) (c n : String) (h : archCode c = some n) :
    stepCapability st c = Except.ok
      { hasSM80 := st.hasSM80 || (archCode c == some "80"),
        hasSM86 := st.hasSM86 || (archCode c == some "86"),
        hasSM89 := st.hasSM89 || (archCode c == some "89"),
        hasSM90 := st.hasSM90 || (archCode c == some "90a"),
        hasSM120 := st.hasSM120 || (archCode c == some "120"),
        num := some n,
        nvccFlags := st.nvccFlags ++ gencodePairs c } := by
  unfold stepCapability gencodePairs
  unfold archCode at h ⊢
  split_ifs at h ⊢ <;> cases h <;>
    simp [List.append_assoc, Option.some_beq_some]

lemma foldStep : ∀ (caps : List String) (st : FlagState),
    (∀ c ∈ caps, (archCode c).isSome = true) →
    ∃ numf, List.foldlM stepCapability st caps = Except.ok
      { hasSM80 := st.hasSM80 || tierBool "80" caps,
        hasSM86 := st.hasSM86 || tierBool "86" caps,
        hasSM89 := st.hasSM89 || tierBool "89" caps,
        hasSM90 := st.hasSM90 || tierBool "90a" caps,
        hasSM120 := st.hasSM120 || tierBool "120" caps,
        num := numf,
        nvccFlags := st.nvccFlags ++ concatAll (caps.map gencodePairs) }
  | [], st, _ => ⟨st.num, by cases st; simp [tierBool, concatAll, pure, Except.pure]⟩
  | c :: cs, st, h => by
    have hc : (archCode c).isSome = true := h c (List.mem_cons_self c cs)
    obtain ⟨n, hn⟩ := Option.isSome_iff_exists.mp hc
    obtain ⟨numf, hf⟩ := foldStep cs
      { hasSM80 := st.hasSM80 || (archCode c == some "80"),
        hasSM86 := st.hasSM86 || (archCode c == some "86"),
        hasSM89 := st.hasSM89 || (archCode c == some "89"),
        hasSM90 := st.hasSM90 || (archCode c == some "90a"),
        hasSM120 := st.hasSM120 || (archCode c == some "120"),
        num := some n,
        nvccFlags := st.nvccFlags ++ gencodePairs c }
      (fun x hx => h x (List.mem_cons_of_mem _ hx))
    refine ⟨numf, ?_⟩
    rw [List.foldlM_cons, stepCapability_eq st c n hn]
    exact hf.trans (by simp [tierBool, concatAll, Bool.or_assoc, List.append_assoc])

lemma extModules_names_flag_free (b80 b86 b89 b90 b120 : Bool)
    (cxx f1 f2 : List String) :
    (extModules b80 b86 b89 b90 b120 cxx f1).map CUDAExtensionSpec.name
    = (extModules b80 b86 b89 b90 b120 cxx f2).map CUDAExtensionSpec.name := by
  cases b80 <;> cases b86 <;> cases b89 <;> cases b90 <;> cases b120 <;>
    simp [extModules, qattnSM80Ext, qattnSM89Ext, qattnSM90Ext, fusedExt]

/-- C6 (counterexample): the flag loop iterates the capability set in
whatever order the set's iteration yields and does not sort, so the same set
iterated in two orders emits differently ordered (hence unequal) flag lists:
the emitted flags are not a function of the set alone. -/
theorem C6_iteration_order_changes_flags :
    composeFlags [] ["8.0", "8.6"] ≠ composeFlags [] ["8.6", "8.0"] := by decide

/-- C6 (amended): resolution is deterministic as a function of the iteration
order; for two iteration orders of the same capability set (all members
recognized by the switch) the tier flags agree, the module plans list the
same module names in the same fixed order, and the emitted device-compiler
flag lists agree up to reordering of the per-capability gencode fragments —
but not necessarily as equal lists. -/
theorem C6_amended_perm_invariance (nvccInit cxx caps1 caps2 : List String)
    (hperm : caps1.Perm caps2)
    (hknown : ∀ c ∈ caps1, (archCode c).isSome = true) :
    ∃ st1 st2,
      composeFlags nvccInit caps1 = Except.ok st1
      ∧ composeFlags nvccInit caps2 = Except.ok st2
      ∧ st1.nvccFlags.Perm st2.nvccFlags
      ∧ st1.hasSM80 = st2.hasSM80 ∧ st1.hasSM86 = st2.hasSM86
      ∧ st1.hasSM89 = st2.hasSM89 ∧ st1.hasSM90 = st2.hasSM90
      ∧ st1.hasSM120 = st2.hasSM120
      ∧ (extModules st1.hasSM80 st1.hasSM86 st1.hasSM89 st1.hasSM90 st1.hasSM120
            cxx st1.nvccFlags).map CUDAExtensionSpec.name
        = (extModules st2.hasSM80 st2.hasSM86 st2.hasSM89 st2.hasSM90 st2.hasSM120
            cxx st2.nvccFlags).map CUDAExtensionSpec.name := by
  obtain ⟨n1, h1⟩ := foldStep caps1 (initFlagState nvccInit) hknown
  obtain ⟨n2, h2⟩ := foldStep caps2 (initFlagState nvccInit)
    (fun c hc => hknown c (hperm.mem_iff.mpr hc))
  have ht : ∀ nstr, tierBool nstr caps1 = tierBool nstr caps2 :=
    fun nstr => any_perm hperm _
  refine ⟨_, _, h1, h2, ?_, ?_, ?_, ?_, ?_, ?_, ?_⟩
  · exact List.Perm.append_left _ (concatAll_perm (hperm.map gencodePairs))
  · show (false || tierBool "80" caps1) = (false || tierBool "80" caps2)
    rw [ht]
  · show (false || tierBool "86" caps1) = (false || tierBool "86" caps2)
    rw [ht]
  · show (false || tierBool "89" caps1) = (false || tierBool "89" caps2)
    rw [ht]
  · show (false || tierBool "90a" caps1) = (false || tierBool "90a" caps2)
    rw [ht]
  · show (false || tierBool "120" caps1) = (false || tierBool "120" caps2)
    rw [ht]
  · show (extModules (false || tierBool "80" caps1) (false || tierBool "86" caps1)
        (false || tierBool "89" caps1) (false || tierBool "90a" caps1)
        (false || tierBool "120" caps1) cxx
        ((initFlagState nvccInit).nvccFlags ++ concatAll (caps1.map gencodePairs))).map
          CUDAExtensionSpec.name
      = (extModules (false || tierBool "80" caps2) (false || tierBool "86" caps2)
        (false || tierBool "89" caps2) (false || tierBool "90a" caps2)
        (false || tierBool "120" caps2) cxx
        ((initFlagState nvccInit).nvccFlags ++ concatAll (caps2.map gencodePairs))).map
          CUDAExtensionSpec.name
    rw [ht "80", ht "86", ht "89", ht "90a", ht "120"]
    exact extModules_names_flag_free _ _ _ _ _ _ _ _

/-- C6 (witness): the amended theorem at the two iteration orders of the set
of capabilities 8.0 and 8.6. -/
theorem C6_amended_witness :
    ∃ st1 st2,
      composeFlags [] ["8.0", "8.6"] = Except.ok st1
      ∧ composeFlags [] ["8.6", "8.0"] = Except.ok st2
      ∧ st1.nvccFlags.Perm st2.nvccFlags
      ∧ st1.hasSM80 = st2.hasSM80 ∧ st1.hasSM86 = st2.hasSM86
      ∧ st1.hasSM89 = st2.hasSM89 ∧ st1.hasSM90 = st2.hasSM90
      ∧ st1.hasSM120 = st2.hasSM120
      ∧ (extModules st1.hasSM80 st1.hasSM86 st1.hasSM89 st1.hasSM90 st1.hasSM120
            [] st1.nvccFlags).map CUDAExtensionSpec.name
        = (extModules st2.hasSM80 st2.hasSM86 st2.hasSM89 st2.hasSM90 st2.hasSM120
            [] st2.nvccFlags).map CUDAExtensionSpec.name :=
  C6_amended_perm_invariance [] [] ["8.0", "8.6"] ["8.6", "8.0"] (by decide) (by decide)
